import Mathlib

/-!
Shallow embedding of the pi-bike-metrics core (src/main.py, src/simple.py).

Time is modelled by ℚ (timestamps passed explicitly as `now`), Python floats
by ℚ, and the audible-feedback device by a list of emitted `Beep` events.
The `BikeMetrics` instance of main.py becomes the `BikeState` structure; each
method becomes a function `now → BikeState → BikeState × …`.
-/

namespace BikeOS

/-- Audible events emitted by the `Beeper` (beep.py): `short_beep` / `long_beep`. -/
inductive Beep where
  | short
  | long
deriving DecidableEq, Repr

/-- `WHEEL_CIRCUMFERENCE = 2.105` meters (main.py line 32). -/
def WHEEL_CIRCUMFERENCE : ℚ := 2105 / 1000

/-- `STOP_DETECTION_TIME = 2.0` seconds (main.py line 34). -/
def STOP_DETECTION_TIME : ℚ := 2

/-- `MAX_WARNING_TIME = 180` seconds (main.py line 35). -/
def MAX_WARNING_TIME : ℚ := 180

/-- `ACTIVE_UPDATE_INTERVAL = 1.0` second (main.py line 70). -/
def ACTIVE_UPDATE_INTERVAL : ℚ := 1

/-- `DISABLED_UPDATE_INTERVAL = 5.0` seconds (main.py line 71). -/
def DISABLED_UPDATE_INTERVAL : ℚ := 5

/-- The mutable fields of the `BikeMetrics` object (main.py `__init__`).
Thread handles and the beeper object are not data; beeps are returned as
events by the operations instead. -/
structure BikeState where
  last_pulse_time : Option ℚ
  pulse_count : ℕ
  total_distance : ℚ
  current_rpm : ℚ
  last_rpm_update : ℚ
  is_pedaling : Bool
  last_pedaling_time : Option ℚ
  stop_warning_active : Bool
  calories : ℚ
  service_enabled : Bool
  warning_start_time : Option ℚ
  system_start_time : ℚ
  last_metrics_update : ℚ
  total_pedaling_time : ℚ
  total_idle_time : ℚ
  total_warning_time : ℚ
  warning_count : ℕ
  service_disable_count : ℕ
  last_service_disable_time : Option ℚ
  peak_rpm : ℚ
  peak_speed : ℚ
  total_pulses : ℕ
  error_count : ℕ
  last_metrics_publish : ℚ
deriving DecidableEq, Repr

/-- Python truthiness of an optional float: `None` and `0.0` are falsy. -/
def truthyOpt : Option ℚ → Bool
  | none => false
  | some t => t ≠ 0

/-- Python truthiness of a float: `0.0` is falsy. -/
def truthyQ (q : ℚ) : Bool := q ≠ 0

/-- `BikeMetrics.__init__` at process start time `t0` (main.py lines 39-72). -/
def initState (t0 : ℚ) : BikeState where
  last_pulse_time := none
  pulse_count := 0
  total_distance := 0
  current_rpm := 0
  last_rpm_update := t0
  is_pedaling := false
  last_pedaling_time := none
  stop_warning_active := false
  calories := 0
  service_enabled := true
  warning_start_time := none
  system_start_time := t0
  last_metrics_update := t0
  total_pedaling_time := 0
  total_idle_time := 0
  total_warning_time := 0
  warning_count := 0
  service_disable_count := 0
  last_service_disable_time := none
  peak_rpm := 0
  peak_speed := 0
  total_pulses := 0
  error_count := 0
  last_metrics_publish := t0

/-- `reset_system` (main.py lines 74-89): re-enable the service if it was
disabled, clear the warning flag and session start; the thread join is a
pure wait and changes no data. -/
def reset_system (s : BikeState) : BikeState :=
  let s1 := if ¬s.service_enabled then { s with service_enabled := true } else s
  { s1 with stop_warning_active := false, warning_start_time := none }

/-- `disable_service` (main.py lines 91-106): clear the enabled flag, count
the disable, stamp its time, and stop any active warning session. -/
def disable_service (now : ℚ) (s : BikeState) : BikeState :=
  let s1 := { s with service_enabled := false,
                     service_disable_count := s.service_disable_count + 1,
                     last_service_disable_time := some now }
  if s1.stop_warning_active then { s1 with stop_warning_active := false } else s1

/-- `start_stop_warning` (main.py lines 172-183). The returned Bool records
whether a new warning thread was spawned. -/
def start_stop_warning (now : ℚ) (s : BikeState) : BikeState × Bool :=
  if ¬s.stop_warning_active ∧ s.service_enabled then
    ({ s with stop_warning_active := true,
              warning_start_time := some now,
              warning_count := s.warning_count + 1 }, true)
  else (s, false)

/-- The cadence and peak-update block of `pulse_callback`
(main.py lines 112-123): from the previous pulse time, set
`current_rpm = 60 / Δt` and raise the recorded peaks when exceeded. -/
def cadence_peak_update (now : ℚ) (s : BikeState) : BikeState :=
  match s.last_pulse_time with
  | some lpt =>
      let time_diff := now - lpt
      if time_diff > 0 then
        let rpm := 60 / time_diff
        let sa := { s with current_rpm := rpm }
        let sb := if rpm > sa.peak_rpm then { sa with peak_rpm := rpm } else sa
        let speed := WHEEL_CIRCUMFERENCE * rpm * 60 / 1000
        if speed > sb.peak_speed then { sb with peak_speed := speed } else sb
      else s
  | none => s

/-- `pulse_callback` (main.py lines 108-144), non-faulting path: cadence and
peak updates from the previous pulse time, accumulators, start-of-pedaling
transition (with `reset_system` and a short acknowledgement beep). -/
def pulse_callback (now : ℚ) (s : BikeState) : BikeState × List Beep :=
  let s1 := cadence_peak_update now s
  let s2 := { s1 with last_pulse_time := some now,
                      pulse_count := s1.pulse_count + 1,
                      total_pulses := s1.total_pulses + 1,
                      total_distance := s1.total_distance + WHEEL_CIRCUMFERENCE,
                      last_rpm_update := now }
  let (s3, evs) :=
    if ¬s2.is_pedaling then
      (reset_system { s2 with is_pedaling := true }, [Beep.short])
    else (s2, ([] : List Beep))
  let s4 := { s3 with last_pedaling_time := some now }
  ({ s4 with calories := s4.calories + WHEEL_CIRCUMFERENCE / 10 }, evs)

/-- `check_pedaling_status` (main.py lines 146-170), non-faulting path:
stop detection on `last_rpm_update`, pedaling-time accounting, long beep and
warning start gated on `service_enabled`. -/
def check_pedaling_status (now : ℚ) (s : BikeState) : BikeState × List Beep :=
  if truthyQ s.last_rpm_update ∧ now - s.last_rpm_update > STOP_DETECTION_TIME then
    if s.is_pedaling then
      let sa := { s with is_pedaling := false }
      let sb := if truthyOpt sa.last_pedaling_time then
          let tp := sa.total_pedaling_time + (now - sa.last_pedaling_time.getD 0)
          { sa with total_pedaling_time := tp }
        else sa
      if sb.service_enabled then
        ({ (start_stop_warning now sb).1 with current_rpm := 0 }, [Beep.long])
      else
        ({ sb with current_rpm := 0 }, [])
    else
      ({ s with current_rpm := 0 }, [])
  else if s.is_pedaling then
    if truthyOpt s.last_pedaling_time then
      let tp := s.total_pedaling_time + (now - s.last_pedaling_time.getD 0)
      ({ s with total_pedaling_time := tp, last_pedaling_time := some now }, [])
    else (s, [])
  else (s, [])

/-- `should_update_metrics` (main.py lines 223-227). -/
def should_update_metrics (now : ℚ) (s : BikeState) : Bool :=
  let interval := if s.service_enabled then ACTIVE_UPDATE_INTERVAL
                  else DISABLED_UPDATE_INTERVAL
  now - s.last_metrics_publish ≥ interval

/-- The snapshot dictionary returned by `get_metrics` (main.py lines 245-263). -/
structure Metrics where
  distance : ℚ
  rpm : ℚ
  is_pedaling : Bool
  calories : ℚ
  service_enabled : Bool
  system_uptime : ℚ
  total_pedaling_time : ℚ
  total_idle_time : ℚ
  total_warning_time : ℚ
  warning_count : ℕ
  service_disable_count : ℕ
  peak_rpm : ℚ
  peak_speed : ℚ
  total_pulses : ℕ
  error_count : ℕ
  last_service_disable_seconds : ℚ
  metrics_update_interval : ℚ
deriving DecidableEq, Repr

/-- The read-only dictionary build at the end of `get_metrics`. -/
def mkMetrics (now : ℚ) (s : BikeState) : Metrics where
  distance := s.total_distance / (160934 / 100)
  rpm := s.current_rpm
  is_pedaling := s.is_pedaling
  calories := s.calories
  service_enabled := s.service_enabled
  system_uptime := now - s.system_start_time
  total_pedaling_time := s.total_pedaling_time
  total_idle_time := s.total_idle_time
  total_warning_time := s.total_warning_time
  warning_count := s.warning_count
  service_disable_count := s.service_disable_count
  peak_rpm := s.peak_rpm
  peak_speed := s.peak_speed
  total_pulses := s.total_pulses
  error_count := s.error_count
  last_service_disable_seconds :=
    match s.last_service_disable_time with
    | some t => if t ≠ 0 then now - t else 0
    | none => 0
  metrics_update_interval :=
    if s.service_enabled then ACTIVE_UPDATE_INTERVAL else DISABLED_UPDATE_INTERVAL

/-- `get_metrics` (main.py lines 229-263): throttled recompute
(`check_pedaling_status` plus idle-time accounting and publish stamping),
then the snapshot of the current fields. -/
def get_metrics (now : ℚ) (s : BikeState) : BikeState × Metrics × List Beep :=
  let (s1, evs) :=
    if should_update_metrics now s then
      let (sc, e) := check_pedaling_status now s
      let sd := if ¬sc.is_pedaling ∧ truthyOpt sc.last_pedaling_time then
          let ti := sc.total_idle_time + (now - sc.last_pedaling_time.getD 0)
          { sc with total_idle_time := ti, last_pedaling_time := some now }
        else sc
      ({ sd with last_metrics_update := now, last_metrics_publish := now }, e)
    else (s, [])
  (s1, mkMetrics now s1, evs)

/-- One externally triggered operation on the shared `BikeMetrics` object:
a hall-sensor pulse, a status poll, a `/service` disable, or a `/metrics`
fetch, each stamped with the wall-clock time at which it runs. -/
inductive Op where
  | pulse (t : ℚ)
  | check (t : ℚ)
  | disable (t : ℚ)
  | fetch (t : ℚ)
deriving DecidableEq, Repr

/-- Apply one operation to the state, discarding emitted beeps and snapshots. -/
def applyOp (s : BikeState) : Op → BikeState
  | Op.pulse t => (pulse_callback t s).1
  | Op.check t => (check_pedaling_status t s).1
  | Op.disable t => disable_service t s
  | Op.fetch t => (get_metrics t s).1

/-- Run a whole trace of operations from the freshly constructed state. -/
def runTrace (t0 : ℚ) (ops : List Op) : BikeState :=
  ops.foldl applyOp (initState t0)

/-- The wall-clock stamp of an operation. -/
def opTime : Op → ℚ
  | Op.pulse t => t
  | Op.check t => t
  | Op.disable t => t
  | Op.fetch t => t

/-- State invariant maintained by every operation (for positive clocks):
a stopped bike shows cadence 0, and while moving the stop-detection clock
`last_rpm_update` is exactly the last pulse time. -/
def Inv (s : BikeState) : Prop :=
  (s.is_pedaling = false → s.current_rpm = 0) ∧
  (s.is_pedaling = true → s.last_pulse_time = some s.last_rpm_update) ∧
  0 < s.last_rpm_update

/-! ## Warning-loop model (`_stop_warning_loop`, main.py lines 185-221)

The loop runs on its own thread and re-reads the shared flags at specific
program points; each read is modelled as a value supplied by the
environment.  One `CycleEnv` collects the reads of one iteration of the
`while` loop: the two flags of the `while` condition, `is_pedaling`, the
wall clock at the timeout check, `service_enabled` before each individual
beep, and the two flags guarding the inter-cycle sleep. -/

structure CycleEnv where
  headActive : Bool
  headEnabled : Bool
  pedaling : Bool
  now : ℚ
  beepEnabled : ℕ → Bool
  postActive : Bool
  postEnabled : Bool

/-- How one iteration of the warning loop ended. -/
inductive CycleOutcome where
  | exited
  | resumed
  | timeout
  | disabledMid (beepsDone : ℕ)
  | interrupted
  | full (sleep : ℚ) (nextCount : ℕ)
deriving DecidableEq, Repr

/-- The inner `for _ in range(n)` beep loop: before beep `i` the loop
re-reads `service_enabled` (`enabledAt i`); a false read clears
`stop_warning_active` and breaks.  Returns the number of short beeps
emitted and whether the loop broke early. -/
def beepRun (enabledAt : ℕ → Bool) : ℕ → ℕ → ℕ × Bool
  | _, 0 => (0, false)
  | i, n + 1 =>
      if enabledAt i then
        let r := beepRun enabledAt (i + 1) n
        (r.1 + 1, r.2)
      else (0, true)

/-- One iteration of the `while` loop of `_stop_warning_loop`, for the
session started at `start` (= `warning_start_time`) with the current
escalation counter `beep_count`.  Returns the number of short beeps emitted
this cycle and the outcome. -/
def warningCycle (beep_count : ℕ) (start : ℚ) (env : CycleEnv) : ℕ × CycleOutcome :=
  if ¬(env.headActive ∧ env.headEnabled) then (0, CycleOutcome.exited)
  else if env.pedaling then (0, CycleOutcome.resumed)
  else if env.now - start > MAX_WARNING_TIME then (0, CycleOutcome.timeout)
  else
    let r := beepRun env.beepEnabled 0 beep_count
    if r.2 then (r.1, CycleOutcome.disabledMid r.1)
    else if env.postActive ∧ env.postEnabled then
      (r.1, CycleOutcome.full (10 - (1/5) * beep_count) (beep_count + 1))
    else (r.1, CycleOutcome.interrupted)

/-- Iterate the warning loop over a stream of per-cycle environments.
Only a `full` outcome continues with the incremented counter; every other
outcome ends the loop (the loop either broke or cleared
`stop_warning_active`, so the next `while` check fails). -/
def warningLoop (start : ℚ) : ℕ → List CycleEnv → List (ℕ × CycleOutcome)
  | _, [] => []
  | bc, e :: es =>
      let r := warningCycle bc start e
      match r.2 with
      | CycleOutcome.full _ next => r :: warningLoop start next es
      | _ => [r]

/-- `_stop_warning_loop` entry: `beep_count` starts at 1. -/
def stop_warning_loop (start : ℚ) (envs : List CycleEnv) : List (ℕ × CycleOutcome) :=
  warningLoop start 1 envs

/-! ## Fault model for the pulse path (`try`/`except` in main.py)

Both `pulse_callback` and `check_pedaling_status` wrap their whole body in
`try: … except: error_count += 1`.  We re-run the same bodies with an
optional injected fault: `fault = some k` makes the `k`-th statement raise,
carrying the state reached so far (`Except.error`); the surrounding handler
turns any raised exception into an `error_count` increment and a normal
return. -/

/-- One fallible statement: statement number `k` raises iff the injected
fault is `some k`, otherwise performs its state update `f`. -/
def faultStep (fault : Option ℕ) (k : ℕ) (f : BikeState → BikeState)
    (s : BikeState) : Except BikeState BikeState :=
  if fault = some k then Except.error s else Except.ok (f s)

/-- Sequencing of fallible statements: a raised exception skips the rest. -/
def andThen (x : Except BikeState BikeState)
    (g : BikeState → Except BikeState BikeState) : Except BikeState BikeState :=
  match x with
  | Except.error e => Except.error e
  | Except.ok s => g s

/-- The `try` body of `pulse_callback` with an injected fault, statement by
statement in source order (main.py lines 110-141); statement 8 is the
`short_beep` call, which mutates no state. -/
def pulse_body (fault : Option ℕ) (now : ℚ) (s : BikeState) :
    Except BikeState BikeState :=
  andThen (faultStep fault 0 (cadence_peak_update now) s) fun s =>
  andThen (faultStep fault 1 (fun s => { s with last_pulse_time := some now }) s) fun s =>
  andThen (faultStep fault 2 (fun s => { s with pulse_count := s.pulse_count + 1 }) s) fun s =>
  andThen (faultStep fault 3 (fun s => { s with total_pulses := s.total_pulses + 1 }) s) fun s =>
  andThen (faultStep fault 4 (fun s => { s with total_distance := s.total_distance + WHEEL_CIRCUMFERENCE }) s) fun s =>
  andThen (faultStep fault 5 (fun s => { s with last_rpm_update := now }) s) fun s =>
  andThen (if ¬s.is_pedaling then
      andThen (faultStep fault 6 (fun s => { s with is_pedaling := true }) s) fun s =>
      andThen (faultStep fault 7 reset_system s) fun s =>
      faultStep fault 8 id s
    else Except.ok s) fun s =>
  andThen (faultStep fault 9 (fun s => { s with last_pedaling_time := some now }) s) fun s =>
  faultStep fault 10 (fun s => { s with calories := s.calories + WHEEL_CIRCUMFERENCE / 10 }) s

/-- `pulse_callback` with its `except` handler around the fallible body:
any raised exception is caught, counted in `error_count`, and the call
returns normally. -/
def pulse_callback_f (fault : Option ℕ) (now : ℚ) (s : BikeState) : BikeState :=
  match pulse_body fault now s with
  | Except.ok r => r
  | Except.error se => { se with error_count := se.error_count + 1 }

/-- The `try` body of `check_pedaling_status` with an injected fault,
statement by statement (main.py lines 148-167); statement 2 is the
`long_beep` call, which mutates no state. -/
def check_body (fault : Option ℕ) (now : ℚ) (s : BikeState) :
    Except BikeState BikeState :=
  if truthyQ s.last_rpm_update ∧ now - s.last_rpm_update > STOP_DETECTION_TIME then
    andThen (if s.is_pedaling then
        andThen (faultStep fault 0 (fun s => { s with is_pedaling := false }) s) fun s =>
        andThen (if truthyOpt s.last_pedaling_time then
            faultStep fault 1 (fun s =>
              let tp := s.total_pedaling_time + (now - s.last_pedaling_time.getD 0)
              { s with total_pedaling_time := tp }) s
          else Except.ok s) fun s =>
        if s.service_enabled then
          andThen (faultStep fault 2 id s) fun s =>
          faultStep fault 3 (fun s => (start_stop_warning now s).1) s
        else Except.ok s
      else Except.ok s) fun s =>
    faultStep fault 4 (fun s => { s with current_rpm := 0 }) s
  else if s.is_pedaling then
    if truthyOpt s.last_pedaling_time then
      faultStep fault 5 (fun s =>
        let tp := s.total_pedaling_time + (now - s.last_pedaling_time.getD 0)
        { s with total_pedaling_time := tp, last_pedaling_time := some now }) s
    else Except.ok s
  else Except.ok s

/-- `check_pedaling_status` with its `except` handler around the body. -/
def check_pedaling_status_f (fault : Option ℕ) (now : ℚ) (s : BikeState) : BikeState :=
  match check_body fault now s with
  | Except.ok r => r
  | Except.error se => { se with error_count := se.error_count + 1 }

/-! ## Verified properties -/

lemma cadence_peak_update_pres (now : ℚ) (s : BikeState) :
    (cadence_peak_update now s).is_pedaling = s.is_pedaling ∧
    (cadence_peak_update now s).last_pulse_time = s.last_pulse_time ∧
    (cadence_peak_update now s).last_rpm_update = s.last_rpm_update ∧
    (cadence_peak_update now s).pulse_count = s.pulse_count ∧
    (cadence_peak_update now s).total_pulses = s.total_pulses ∧
    (cadence_peak_update now s).total_distance = s.total_distance ∧
    (cadence_peak_update now s).calories = s.calories ∧
    (cadence_peak_update now s).error_count = s.error_count ∧
    (cadence_peak_update now s).service_enabled = s.service_enabled ∧
    (cadence_peak_update now s).stop_warning_active = s.stop_warning_active ∧
    (cadence_peak_update now s).warning_count = s.warning_count ∧
    (cadence_peak_update now s).last_pedaling_time = s.last_pedaling_time ∧
    (cadence_peak_update now s).last_metrics_publish = s.last_metrics_publish := by
  unfold cadence_peak_update
  cases h : s.last_pulse_time <;> simp [h] <;> split_ifs <;> simp [h]



lemma pulse_fields (now : ℚ) (s : BikeState) :
    (pulse_callback now s).1.is_pedaling = true ∧
    (pulse_callback now s).1.last_pulse_time = some now ∧
    (pulse_callback now s).1.last_rpm_update = now ∧
    (pulse_callback now s).1.pulse_count = s.pulse_count + 1 ∧
    (pulse_callback now s).1.total_pulses = s.total_pulses + 1 ∧
    (pulse_callback now s).1.total_distance = s.total_distance + WHEEL_CIRCUMFERENCE ∧
    (pulse_callback now s).1.calories = s.calories + WHEEL_CIRCUMFERENCE / 10 ∧
    (pulse_callback now s).1.error_count = s.error_count ∧
    (pulse_callback now s).1.service_enabled = (if s.is_pedaling then s.service_enabled else true) ∧
    (pulse_callback now s).1.current_rpm = (cadence_peak_update now s).current_rpm ∧
    (pulse_callback now s).1.peak_rpm = (cadence_peak_update now s).peak_rpm ∧
    (pulse_callback now s).1.peak_speed = (cadence_peak_update now s).peak_speed ∧
    (pulse_callback now s).1.last_pedaling_time = some now ∧
    (pulse_callback now s).1.last_metrics_publish = s.last_metrics_publish := by
  obtain ⟨h1, h2, h3, h4, h5, h6, h7, h8, h9, h10, h11, h12, h13⟩ :=
    cadence_peak_update_pres now s
  unfold pulse_callback reset_system
  by_cases hp : (cadence_peak_update now s).is_pedaling <;>
    by_cases hs : (cadence_peak_update now s).service_enabled <;>
      simp_all



lemma start_stop_warning_pres (now : ℚ) (s : BikeState) :
    (start_stop_warning now s).1.service_enabled = s.service_enabled ∧
    (start_stop_warning now s).1.is_pedaling = s.is_pedaling ∧
    (start_stop_warning now s).1.current_rpm = s.current_rpm ∧
    (start_stop_warning now s).1.total_distance = s.total_distance ∧
    (start_stop_warning now s).1.calories = s.calories ∧
    (start_stop_warning now s).1.error_count = s.error_count ∧
    (start_stop_warning now s).1.last_pulse_time = s.last_pulse_time ∧
    (start_stop_warning now s).1.last_rpm_update = s.last_rpm_update ∧
    (start_stop_warning now s).1.pulse_count = s.pulse_count ∧
    (start_stop_warning now s).1.total_pulses = s.total_pulses ∧
    (start_stop_warning now s).1.peak_rpm = s.peak_rpm ∧
    (start_stop_warning now s).1.peak_speed = s.peak_speed ∧
    (start_stop_warning now s).1.total_pedaling_time = s.total_pedaling_time ∧
    (start_stop_warning now s).1.last_pedaling_time = s.last_pedaling_time ∧
    (start_stop_warning now s).1.last_metrics_publish = s.last_metrics_publish := by
  unfold start_stop_warning
  split_ifs <;> simp

lemma check_pres (now : ℚ) (s : BikeState) :
    (check_pedaling_status now s).1.service_enabled = s.service_enabled ∧
    (check_pedaling_status now s).1.total_distance = s.total_distance ∧
    (check_pedaling_status now s).1.calories = s.calories ∧
    (check_pedaling_status now s).1.error_count = s.error_count ∧
    (check_pedaling_status now s).1.last_pulse_time = s.last_pulse_time ∧
    (check_pedaling_status now s).1.last_rpm_update = s.last_rpm_update ∧
    (check_pedaling_status now s).1.pulse_count = s.pulse_count ∧
    (check_pedaling_status now s).1.total_pulses = s.total_pulses ∧
    (check_pedaling_status now s).1.peak_rpm = s.peak_rpm ∧
    (check_pedaling_status now s).1.peak_speed = s.peak_speed ∧
    (check_pedaling_status now s).1.last_metrics_publish = s.last_metrics_publish := by
  unfold check_pedaling_status
  by_cases hlt : truthyOpt s.last_pedaling_time = true <;>
    split_ifs <;> simp [start_stop_warning_pres, hlt] <;>
      split_ifs <;> simp [start_stop_warning_pres, hlt]

lemma get_metrics_pres (now : ℚ) (s : BikeState) :
    (get_metrics now s).1.service_enabled = s.service_enabled ∧
    (get_metrics now s).1.total_distance = s.total_distance ∧
    (get_metrics now s).1.calories = s.calories ∧
    (get_metrics now s).1.error_count = s.error_count ∧
    (get_metrics now s).1.last_pulse_time = s.last_pulse_time ∧
    (get_metrics now s).1.last_rpm_update = s.last_rpm_update := by
  unfold get_metrics
  split_ifs <;> simp [check_pres] <;> split_ifs <;> simp [check_pres]





lemma disable_pres (now : ℚ) (s : BikeState) :
    (disable_service now s).is_pedaling = s.is_pedaling ∧
    (disable_service now s).current_rpm = s.current_rpm ∧
    (disable_service now s).last_pulse_time = s.last_pulse_time ∧
    (disable_service now s).last_rpm_update = s.last_rpm_update ∧
    (disable_service now s).total_distance = s.total_distance ∧
    (disable_service now s).calories = s.calories := by
  unfold disable_service
  by_cases h : s.stop_warning_active <;> simp [h]

lemma check_shape (now : ℚ) (s : BikeState) :
    ((truthyQ s.last_rpm_update ∧ now - s.last_rpm_update > STOP_DETECTION_TIME) →
      (check_pedaling_status now s).1.is_pedaling = false ∧
      (check_pedaling_status now s).1.current_rpm = 0) ∧
    (¬(truthyQ s.last_rpm_update ∧ now - s.last_rpm_update > STOP_DETECTION_TIME) →
      (check_pedaling_status now s).1.is_pedaling = s.is_pedaling ∧
      (check_pedaling_status now s).1.current_rpm = s.current_rpm) := by
  constructor
  · intro ht
    unfold check_pedaling_status
    rw [if_pos ht]
    by_cases hp : s.is_pedaling = true <;>
      by_cases hlt : truthyOpt s.last_pedaling_time = true <;>
        by_cases hse : s.service_enabled = true <;>
          simp [hp, hlt, hse, start_stop_warning_pres]
  · intro ht
    unfold check_pedaling_status
    rw [if_neg ht]
    by_cases hp : s.is_pedaling = true <;>
      by_cases hlt : truthyOpt s.last_pedaling_time = true <;>
        simp [hp, hlt]

lemma inv_check (now : ℚ) (s : BikeState) (h : Inv s) :
    Inv ((check_pedaling_status now s).1) := by
  obtain ⟨h1, h2, h3⟩ := h
  obtain ⟨cs1, cs2⟩ := check_shape now s
  obtain ⟨p1, p2, p3, p4, p5, p6, p7, p8, p9, p10, p11⟩ := check_pres now s
  by_cases ht : truthyQ s.last_rpm_update = true ∧ now - s.last_rpm_update > STOP_DETECTION_TIME
  · obtain ⟨e1, e2⟩ := cs1 ht
    refine ⟨fun _ => e2, fun hp => ?_, ?_⟩
    · rw [e1] at hp; exact absurd hp (by simp)
    · rw [p6]; exact h3
  · obtain ⟨e1, e2⟩ := cs2 ht
    refine ⟨fun hp => ?_, fun hp => ?_, ?_⟩
    · rw [e2]; exact h1 (e1 ▸ hp)
    · rw [p5, p6]; exact h2 (e1 ▸ hp)
    · rw [p6]; exact h3



lemma inv_pulse (now : ℚ) (s : BikeState) (ht : 0 < now) :
    Inv ((pulse_callback now s).1) := by
  obtain ⟨f1, f2, f3, -⟩ := pulse_fields now s
  refine ⟨fun hp => ?_, fun _ => ?_, ?_⟩
  · rw [f1] at hp; exact absurd hp (by simp)
  · rw [f2, f3]
  · rw [f3]; exact ht

lemma inv_disable (now : ℚ) (s : BikeState) (h : Inv s) :
    Inv (disable_service now s) := by
  obtain ⟨h1, h2, h3⟩ := h
  obtain ⟨d1, d2, d3, d4, d5, d6⟩ := disable_pres now s
  refine ⟨fun hp => ?_, fun hp => ?_, ?_⟩
  · rw [d2]; exact h1 (d1 ▸ hp)
  · rw [d3, d4]; exact h2 (d1 ▸ hp)
  · rw [d4]; exact h3

lemma inv_get (now : ℚ) (s : BikeState) (h : Inv s) :
    Inv ((get_metrics now s).1) := by
  obtain ⟨h1, h2, h3⟩ := inv_check now s h
  obtain ⟨g1, g2, g3⟩ := h
  refine ⟨?_, ?_, ?_⟩ <;>
    · unfold get_metrics
      split_ifs <;> simp_all <;> split_ifs <;> simp_all

lemma inv_apply (op : Op) (s : BikeState) (h : Inv s) (ht : 0 < opTime op) :
    Inv (applyOp s op) := by
  cases op with
  | pulse t => exact inv_pulse t s ht
  | check t => exact inv_check t s h
  | disable t => exact inv_disable t s h
  | fetch t => exact inv_get t s h

lemma inv_foldl (ops : List Op) (s : BikeState) (h : Inv s)
    (hops : ∀ op ∈ ops, 0 < opTime op) : Inv (ops.foldl applyOp s) := by
  induction ops generalizing s with
  | nil => exact h
  | cons op rest ih =>
      exact ih (applyOp s op) (inv_apply op s h (hops op (by simp)))
        (fun o ho => hops o (by simp [ho]))

lemma inv_init (t0 : ℚ) (h : 0 < t0) : Inv (initState t0) :=
  ⟨fun _ => rfl, fun hp => by simp [initState] at hp, h⟩

lemma inv_runTrace (t0 : ℚ) (ops : List Op) (h0 : 0 < t0)
    (hops : ∀ op ∈ ops, 0 < opTime op) : Inv (runTrace t0 ops) :=
  inv_foldl ops (initState t0) (inv_init t0 h0) hops



/-- C1: for every reachable state (positive clocks) in which the bike is moving,
if more than `STOP_DETECTION_TIME` (2 s) elapsed since the last pulse, the next
`check_pedaling_status` call sets `is_pedaling` to false and `current_rpm` to 0,
regardless of the prior cadence; and if the bike is already not moving, the
call leaves the state unchanged and emits no beep. -/
theorem C1_stop_detection (t0 now : ℚ) (ops : List Op) (ht0 : 0 < t0)
    (hops : ∀ op ∈ ops, 0 < opTime op) :
    ((runTrace t0 ops).is_pedaling = true →
      ∀ tp, (runTrace t0 ops).last_pulse_time = some tp →
        now - tp > STOP_DETECTION_TIME →
        (check_pedaling_status now (runTrace t0 ops)).1.is_pedaling = false ∧
        (check_pedaling_status now (runTrace t0 ops)).1.current_rpm = 0) ∧
    ((runTrace t0 ops).is_pedaling = false →
      check_pedaling_status now (runTrace t0 ops) = (runTrace t0 ops, [])) := by
  obtain ⟨i1, i2, i3⟩ := inv_runTrace t0 ops ht0 hops
  set s := runTrace t0 ops with hs
  constructor
  · intro hp tp htp hgt
    have hteq : tp = s.last_rpm_update := by
      rw [i2 hp] at htp
      exact (Option.some_inj.mp htp).symm
    have htr : truthyQ s.last_rpm_update = true := by
      simp [truthyQ]
      exact ne_of_gt i3
    exact (check_shape now s).1 ⟨htr, hteq ▸ hgt⟩
  · intro hp
    have hrpm := i1 hp
    unfold check_pedaling_status
    simp only [hp, Bool.false_eq_true, if_false]
    split_ifs with h1
    · rw [← hrpm, ← hp]
    · rfl

lemma pulses_accum (ts : List ℚ) (s : BikeState) :
    ((ts.map Op.pulse).foldl applyOp s).total_distance
        = s.total_distance + ts.length * WHEEL_CIRCUMFERENCE ∧
    ((ts.map Op.pulse).foldl applyOp s).calories
        = s.calories + ts.length * (WHEEL_CIRCUMFERENCE / 10) := by
  induction ts generalizing s with
  | nil => simp
  | cons t rest ih =>
      obtain ⟨ih1, ih2⟩ := ih (applyOp s (Op.pulse t))
      obtain ⟨-, -, -, -, -, f6, f7, -⟩ := pulse_fields t s
      constructor
      · simp only [List.map_cons, List.foldl_cons, ih1]
        show (pulse_callback t s).1.total_distance + _ = _
        rw [f6]
        simp only [List.length_cons]
        push_cast
        ring
      · simp only [List.map_cons, List.foldl_cons, ih2]
        show (pulse_callback t s).1.calories + _ = _
        rw [f7]
        simp only [List.length_cons]
        push_cast
        ring

/-- C6: after `N` pulses from the initial state, `total_distance` equals
`N * WHEEL_CIRCUMFERENCE` and `calories` equals `total_distance / 10`; and no
operation — pulse, status check, `disable_service`, or metrics fetch — ever
decreases `total_distance` or `calories`. -/
theorem C6_monotonic_accumulators (t0 : ℚ) (ts : List ℚ) :
    (runTrace t0 (ts.map Op.pulse)).total_distance
        = ts.length * WHEEL_CIRCUMFERENCE ∧
    (runTrace t0 (ts.map Op.pulse)).calories
        = (runTrace t0 (ts.map Op.pulse)).total_distance / 10 ∧
    ∀ s op, s.total_distance ≤ (applyOp s op).total_distance ∧
        s.calories ≤ (applyOp s op).calories := by
  obtain ⟨h1, h2⟩ := pulses_accum ts (initState t0)
  refine ⟨?_, ?_, ?_⟩
  · rw [runTrace, h1]; simp [initState]
  · rw [runTrace, h1, h2]; simp [initState]; ring
  · intro s op
    cases op with
    | pulse t =>
        obtain ⟨-, -, -, -, -, f6, f7, -⟩ := pulse_fields t s
        constructor
        · rw [show applyOp s (Op.pulse t) = (pulse_callback t s).1 from rfl, f6]
          have : (0:ℚ) ≤ WHEEL_CIRCUMFERENCE := by norm_num [WHEEL_CIRCUMFERENCE]
          linarith
        · rw [show applyOp s (Op.pulse t) = (pulse_callback t s).1 from rfl, f7]
          have : (0:ℚ) ≤ WHEEL_CIRCUMFERENCE / 10 := by norm_num [WHEEL_CIRCUMFERENCE]
          linarith
    | check t =>
        obtain ⟨-, p2, p3, -⟩ := check_pres t s
        exact ⟨le_of_eq p2.symm, le_of_eq p3.symm⟩
    | disable t =>
        obtain ⟨-, -, -, -, d5, d6⟩ := disable_pres t s
        exact ⟨le_of_eq d5.symm, le_of_eq d6.symm⟩
    | fetch t =>
        obtain ⟨-, g2, g3, -⟩ := get_metrics_pres t s
        exact ⟨le_of_eq g2.symm, le_of_eq g3.symm⟩

/-- C5: processing a pulse `dt > 0` seconds after the previous one sets
`current_rpm` to `60 / dt`; in particular pulses spaced 0.5 s apart yield a
cadence of 120 rpm from the second pulse on. -/
theorem C5_cadence (s : BikeState) (t1 dt : ℚ) (h : s.last_pulse_time = some t1)
    (hdt : 0 < dt) :
    (pulse_callback (t1 + dt) s).1.current_rpm = 60 / dt ∧
    (dt = 1 / 2 → (pulse_callback (t1 + dt) s).1.current_rpm = 120) := by
  obtain ⟨-, -, -, -, -, -, -, -, -, f10, -⟩ := pulse_fields (t1 + dt) s
  have hcad : (cadence_peak_update (t1 + dt) s).current_rpm = 60 / dt := by
    unfold cadence_peak_update
    rw [h]
    have hd : t1 + dt - t1 = dt := by ring
    simp only [hd]
    rw [if_pos hdt]
    split_ifs <;> rfl
  refine ⟨by rw [f10, hcad], fun he => ?_⟩
  rw [f10, hcad, he]
  norm_num



/-- C7: while a warning session is active, `start_stop_warning` is a no-op:
the state is returned unchanged (in particular `warning_start_time` and
`warning_count` keep their values) and no second warning thread is spawned
(the spawn flag is false). -/
theorem C7_single_warning (now : ℚ) (s : BikeState) (h : s.stop_warning_active = true) :
    start_stop_warning now s = (s, false) := by
  unfold start_stop_warning
  rw [if_neg]
  simp [h]

/-- C10: processing the very first pulse, when no previous pulse time is
recorded, leaves `current_rpm` at 0 and both peaks untouched, while still
incrementing `pulse_count`, `total_distance` and `calories` and setting
`is_pedaling` to true. -/
theorem C10_first_pulse (now : ℚ) (s : BikeState) (h0 : s.last_pulse_time = none)
    (h1 : s.current_rpm = 0) :
    (pulse_callback now s).1.current_rpm = 0 ∧
    (pulse_callback now s).1.peak_rpm = s.peak_rpm ∧
    (pulse_callback now s).1.peak_speed = s.peak_speed ∧
    (pulse_callback now s).1.pulse_count = s.pulse_count + 1 ∧
    (pulse_callback now s).1.total_distance = s.total_distance + WHEEL_CIRCUMFERENCE ∧
    (pulse_callback now s).1.calories = s.calories + WHEEL_CIRCUMFERENCE / 10 ∧
    (pulse_callback now s).1.is_pedaling = true := by
  obtain ⟨f1, f2, f3, f4, f5, f6, f7, f8, f9, f10, f11, f12, f13, f14⟩ :=
    pulse_fields now s
  have hc : cadence_peak_update now s = s := by
    unfold cadence_peak_update
    rw [h0]
  rw [hc] at f10 f11 f12
  exact ⟨f10.trans h1, f11, f12, f4, f6, f7, f1⟩

/-- C3 counterexample: after an explicit manual `disable_service` and a
detected stop, the very next pulse DOES set `service_enabled` back to true,
refuting the claim that an explicit disable survives pedaling resumption. -/
theorem C3_counterexample :
    (runTrace 1 [Op.pulse 1, Op.disable 2, Op.check 4]).service_enabled = false ∧
    (runTrace 1 [Op.pulse 1, Op.disable 2, Op.check 4]).is_pedaling = false ∧
    (pulse_callback 5 (runTrace 1 [Op.pulse 1, Op.disable 2, Op.check 4])).1.service_enabled
      = true := by
  norm_num [runTrace, applyOp, initState, pulse_callback, cadence_peak_update,
    reset_system, disable_service, check_pedaling_status, start_stop_warning,
    truthyQ, truthyOpt, STOP_DETECTION_TIME, WHEEL_CIRCUMFERENCE]

/-- C3 (amended): pedaling resumption re-enables the service unconditionally.
Any pulse processed while the bike is not moving leaves `service_enabled`
true, regardless of whether the preceding disable was manual: the code keeps
no record of why the service was disabled. -/
theorem C3_amended_reenable (now : ℚ) (s : BikeState) (h : s.is_pedaling = false) :
    (pulse_callback now s).1.service_enabled = true := by
  obtain ⟨f1, f2, f3, f4, f5, f6, f7, f8, f9, f10, f11, f12, f13, f14⟩ :=
    pulse_fields now s
  rw [f9, h]
  simp

/-- C4 counterexample: a moving state whose service is disabled reaches the
stop timeout and emits NO long beep — the acknowledgement beep is not
unconditional. -/
theorem C4_counterexample :
    (runTrace 1 [Op.pulse 1, Op.disable 2]).is_pedaling = true ∧
    (runTrace 1 [Op.pulse 1, Op.disable 2]).service_enabled = false ∧
    ((4 : ℚ) - (runTrace 1 [Op.pulse 1, Op.disable 2]).last_rpm_update
      > STOP_DETECTION_TIME) ∧
    (check_pedaling_status 4 (runTrace 1 [Op.pulse 1, Op.disable 2])).2 = [] ∧
    (check_pedaling_status 4 (runTrace 1 [Op.pulse 1, Op.disable 2])).1.is_pedaling
      = false := by
  norm_num [runTrace, applyOp, initState, pulse_callback, cadence_peak_update,
    reset_system, disable_service, check_pedaling_status, start_stop_warning,
    truthyQ, truthyOpt, STOP_DETECTION_TIME, WHEEL_CIRCUMFERENCE]

/-- C4 (amended): when `check_pedaling_status` detects the stop timeout while
moving, it emits the long acknowledgement beep and starts a warning session
only if `service_enabled` is true; with the service disabled neither the beep
nor a session occurs and the machine merely transitions to Stopped. -/
theorem C4_amended_stop_outputs (now : ℚ) (s : BikeState) (hp : s.is_pedaling = true)
    (ht : truthyQ s.last_rpm_update = true)
    (hgt : now - s.last_rpm_update > STOP_DETECTION_TIME) :
    (check_pedaling_status now s).1.is_pedaling = false ∧
    (check_pedaling_status now s).2
      = (if s.service_enabled then [Beep.long] else []) ∧
    (s.service_enabled = false →
      (check_pedaling_status now s).1.stop_warning_active = s.stop_warning_active ∧
      (check_pedaling_status now s).1.warning_count = s.warning_count) ∧
    (s.service_enabled = true → s.stop_warning_active = false →
      (check_pedaling_status now s).1.stop_warning_active = true ∧
      (check_pedaling_status now s).1.warning_count = s.warning_count + 1) := by
  refine ⟨((check_shape now s).1 ⟨ht, hgt⟩).1, ?_, ?_, ?_⟩ <;>
    · unfold check_pedaling_status
      rw [if_pos ⟨ht, hgt⟩]
      by_cases hse : s.service_enabled = true <;>
        by_cases hlt : truthyOpt s.last_pedaling_time = true <;>
          by_cases hsw : s.stop_warning_active = true <;>
            simp [start_stop_warning, hp, hse, hlt, hsw]



lemma get_metrics_throttled (t : ℚ) (s : BikeState)
    (h : should_update_metrics t s = false) : get_metrics t s = (s, mkMetrics t s, []) := by
  unfold get_metrics
  rw [if_neg (by simp [h])]

lemma get_metrics_publish (t : ℚ) (s : BikeState)
    (h : should_update_metrics t s = true) :
    (get_metrics t s).1.last_metrics_publish = t := by
  unfold get_metrics
  rw [if_pos (by simp [h])]

/-- C8: the recompute inside `get_metrics` runs only when the throttle
interval (1 s while enabled, 5 s while disabled) has elapsed since the last
recompute; after a recompute at `t0`, a second call within the interval
performs no recompute and no state mutation, and its returned snapshot still
reflects the current state; a throttled call never mutates the state. -/
theorem C8_idempotent_snapshot (t0 t1 : ℚ) (s : BikeState)
    (h0 : should_update_metrics t0 s = true)
    (hlt : t1 - t0 < (if s.service_enabled = true then ACTIVE_UPDATE_INTERVAL
        else DISABLED_UPDATE_INTERVAL)) :
    (get_metrics t0 s).1.last_metrics_publish = t0 ∧
    should_update_metrics t1 (get_metrics t0 s).1 = false ∧
    (get_metrics t1 (get_metrics t0 s).1).1 = (get_metrics t0 s).1 ∧
    (get_metrics t1 (get_metrics t0 s).1).2.1 = mkMetrics t1 (get_metrics t0 s).1 ∧
    ∀ t s2, should_update_metrics t s2 = false → (get_metrics t s2).1 = s2 := by
  have hpub := get_metrics_publish t0 s h0
  obtain ⟨g1, -⟩ := get_metrics_pres t0 s
  have hsu : should_update_metrics t1 (get_metrics t0 s).1 = false := by
    unfold should_update_metrics
    rw [g1, hpub]
    simp only [decide_eq_false_iff_not, not_le]
    split_ifs at hlt ⊢ <;> linarith
  have hth := get_metrics_throttled t1 (get_metrics t0 s).1 hsu
  refine ⟨hpub, hsu, by rw [hth], by rw [hth], fun t s2 h2 => by rw [get_metrics_throttled t s2 h2]⟩



lemma beepRun_all (enabledAt : ℕ → Bool) (n i : ℕ)
    (h : ∀ j, j < n → enabledAt (i + j) = true) :
    beepRun enabledAt i n = (n, false) := by
  induction n generalizing i with
  | zero => rfl
  | succ m ih =>
      have h0 : enabledAt i = true := by simpa using h 0 (Nat.succ_pos m)
      have hr : beepRun enabledAt (i + 1) m = (m, false) :=
        ih (i + 1) (fun j hj => by
          have := h (j + 1) (Nat.succ_lt_succ hj)
          rwa [show i + (j + 1) = i + 1 + j by omega] at this)
      simp [beepRun, h0, hr]

lemma beepRun_stop (enabledAt : ℕ → Bool) (n i j : ℕ) (hj : j < n)
    (hall : ∀ m, m < j → enabledAt (i + m) = true)
    (hstop : enabledAt (i + j) = false) :
    beepRun enabledAt i n = (j, true) := by
  induction n generalizing i j with
  | zero => omega
  | succ m ih =>
      cases j with
      | zero =>
          have h0 : enabledAt i = false := by simpa using hstop
          simp [beepRun, h0]
      | succ k =>
          have h0 : enabledAt i = true := by simpa using hall 0 (Nat.succ_pos k)
          have hr : beepRun enabledAt (i + 1) m = (k, true) := by
            refine ih (i + 1) k (by omega) (fun m' hm' => ?_) ?_
            · have := hall (m' + 1) (Nat.succ_lt_succ hm')
              rwa [show i + (m' + 1) = i + 1 + m' by omega] at this
            · rwa [show i + (k + 1) = i + 1 + k by omega] at hstop
          simp [beepRun, h0, hr]

/-- C2: warning escalation.  In every session `beep_count` starts at 1 (the
first cycle of `stop_warning_loop` runs with counter 1).  Each cycle, while the
session flag and `service_enabled` read true at the loop head: if pedaling
resumed the loop stops immediately with no beep; otherwise, if more than
`MAX_WARNING_TIME` (180 s) elapsed since the session start time it stops;
otherwise it emits `beep_count` short beeps, re-reading `service_enabled`
before every individual beep and stopping mid-cycle after only the beeps
preceding a false read, then sleeps `10 - 0.2 * beep_count` seconds and
increments `beep_count`. -/
theorem C2_warning_escalation :
    (∀ start e es, (stop_warning_loop start (e :: es)).head?
        = some (warningCycle 1 start e)) ∧
    (∀ bc start e, e.headActive = true → e.headEnabled = true → e.pedaling = false →
        e.now - start > MAX_WARNING_TIME →
        warningCycle bc start e = (0, CycleOutcome.timeout)) ∧
    (∀ bc start e, e.headActive = true → e.headEnabled = true → e.pedaling = false →
        ¬(e.now - start > MAX_WARNING_TIME) → (∀ i, i < bc → e.beepEnabled i = true) →
        e.postActive = true → e.postEnabled = true →
        warningCycle bc start e
          = (bc, CycleOutcome.full (10 - (1/5) * bc) (bc + 1))) ∧
    (∀ bc start e j, j < bc → (∀ i, i < j → e.beepEnabled i = true) →
        e.beepEnabled j = false →
        e.headActive = true → e.headEnabled = true → e.pedaling = false →
        ¬(e.now - start > MAX_WARNING_TIME) →
        warningCycle bc start e = (j, CycleOutcome.disabledMid j)) ∧
    (∀ bc start e es, e.headActive = true → e.headEnabled = true → e.pedaling = true →
        warningLoop start bc (e :: es) = [(0, CycleOutcome.resumed)]) := by
  refine ⟨?_, ?_, ?_, ?_, ?_⟩
  · intro start e es
    unfold stop_warning_loop warningLoop
    rcases hr : warningCycle 1 start e with ⟨k, oc⟩
    cases oc <;> simp
  · intro bc start e ha he hp ht
    unfold warningCycle
    rw [if_neg (by simp [ha, he]), if_neg (by simp [hp]), if_pos ht]
  · intro bc start e ha he hp ht hb hpa hpe
    unfold warningCycle
    rw [if_neg (by simp [ha, he]), if_neg (by simp [hp]), if_neg ht]
    have hr : beepRun e.beepEnabled 0 bc = (bc, false) :=
      beepRun_all e.beepEnabled bc 0 (fun j hj => by simpa using hb j hj)
    simp [hr, hpa, hpe]
  · intro bc start e j hj hall hstop ha he hp ht
    unfold warningCycle
    rw [if_neg (by simp [ha, he]), if_neg (by simp [hp]), if_neg ht]
    have hr : beepRun e.beepEnabled 0 bc = (j, true) :=
      beepRun_stop e.beepEnabled bc 0 j hj (fun m hm => by simpa using hall m hm)
        (by simpa using hstop)
    simp [hr]
  · intro bc start e es ha he hp
    unfold warningLoop
    have hc : warningCycle bc start e = (0, CycleOutcome.resumed) := by
      unfold warningCycle
      rw [if_neg (by simp [ha, he]), if_pos (by simp [hp])]
    simp [hc]



lemma reset_system_error_count (s : BikeState) :
    (reset_system s).error_count = s.error_count := by
  unfold reset_system
  split_ifs <;> rfl

lemma pulse_body_err (fault : Option ℕ) (now : ℚ) (s se : BikeState)
    (h : pulse_body fault now s = Except.error se) : se.error_count = s.error_count := by
  have c1 : (cadence_peak_update now s).is_pedaling = s.is_pedaling :=
    (cadence_peak_update_pres now s).1
  have c8 : (cadence_peak_update now s).error_count = s.error_count :=
    ((cadence_peak_update_pres now s).2.2.2.2.2.2.2).1
  by_cases h0 : fault = some 0
  · simp [pulse_body, andThen, faultStep, h0] at h
    subst h; rfl
  · by_cases h1 : fault = some 1
    · simp [pulse_body, andThen, faultStep, h0, h1] at h
      subst h; simp [c8]
    · by_cases h2 : fault = some 2
      · simp [pulse_body, andThen, faultStep, h0, h1, h2] at h
        subst h; simp [c8]
      · by_cases h3 : fault = some 3
        · simp [pulse_body, andThen, faultStep, h0, h1, h2, h3] at h
          subst h; simp [c8]
        · by_cases h4 : fault = some 4
          · simp [pulse_body, andThen, faultStep, h0, h1, h2, h3, h4] at h
            subst h; simp [c8]
          · by_cases h5 : fault = some 5
            · simp [pulse_body, andThen, faultStep, h0, h1, h2, h3, h4, h5] at h
              subst h; simp [c8]
            · by_cases hp : s.is_pedaling = true
              · by_cases h9 : fault = some 9
                · simp [pulse_body, andThen, faultStep, h0, h1, h2, h3, h4, h5,
                    h9, hp, c1] at h
                  subst h; simp [c8]
                · by_cases h10 : fault = some 10
                  · simp [pulse_body, andThen, faultStep, h0, h1, h2, h3, h4, h5,
                      h9, h10, hp, c1] at h
                    subst h; simp [c8]
                  · simp [pulse_body, andThen, faultStep, h0, h1, h2, h3, h4, h5,
                      h9, h10, hp, c1] at h
              · by_cases h6 : fault = some 6
                · simp [pulse_body, andThen, faultStep, h0, h1, h2, h3, h4, h5,
                    h6, hp, c1] at h
                  subst h; simp [c8]
                · by_cases h7 : fault = some 7
                  · simp [pulse_body, andThen, faultStep, h0, h1, h2, h3, h4, h5,
                      h6, h7, hp, c1] at h
                    subst h; simp [c8]
                  · by_cases h8 : fault = some 8
                    · simp [pulse_body, andThen, faultStep, h0, h1, h2, h3, h4,
                        h5, h6, h7, h8, hp, c1] at h
                      subst h; simp [c8, reset_system_error_count]
                    · by_cases h9 : fault = some 9
                      · simp [pulse_body, andThen, faultStep, h0, h1, h2, h3, h4,
                          h5, h6, h7, h8, h9, hp, c1] at h
                        subst h; simp [c8, reset_system_error_count]
                      · by_cases h10 : fault = some 10
                        · simp [pulse_body, andThen, faultStep, h0, h1, h2, h3,
                            h4, h5, h6, h7, h8, h9, h10, hp, c1] at h
                          subst h; simp [c8, reset_system_error_count]
                        · simp [pulse_body, andThen, faultStep, h0, h1, h2, h3,
                            h4, h5, h6, h7, h8, h9, h10, hp, c1] at h

lemma start_stop_warning_error_count (t : ℚ) (x : BikeState) :
    (start_stop_warning t x).1.error_count = x.error_count := by
  unfold start_stop_warning
  split_ifs <;> rfl

lemma check_body_err (fault : Option ℕ) (now : ℚ) (s se : BikeState)
    (h : check_body fault now s = Except.error se) : se.error_count = s.error_count := by
  by_cases h0 : fault = some 0
  ·
    by_cases hT : truthyQ s.last_rpm_update = true ∧ now - s.last_rpm_update > STOP_DETECTION_TIME <;>
      by_cases hp : s.is_pedaling = true <;>
        by_cases hlt : truthyOpt s.last_pedaling_time = true <;>
          by_cases hse : s.service_enabled = true <;>
            · simp [check_body, andThen, faultStep, h0, hT, hp, hlt, hse] at h
              try (subst h; simp [start_stop_warning_error_count])
  ·
    by_cases h1 : fault = some 1
    ·
      by_cases hT : truthyQ s.last_rpm_update = true ∧ now - s.last_rpm_update > STOP_DETECTION_TIME <;>
        by_cases hp : s.is_pedaling = true <;>
          by_cases hlt : truthyOpt s.last_pedaling_time = true <;>
            by_cases hse : s.service_enabled = true <;>
              · simp [check_body, andThen, faultStep, h0, h1, hT, hp, hlt, hse] at h
                try (subst h; simp [start_stop_warning_error_count])
    ·
      by_cases h2 : fault = some 2
      ·
        by_cases hT : truthyQ s.last_rpm_update = true ∧ now - s.last_rpm_update > STOP_DETECTION_TIME <;>
          by_cases hp : s.is_pedaling = true <;>
            by_cases hlt : truthyOpt s.last_pedaling_time = true <;>
              by_cases hse : s.service_enabled = true <;>
                · simp [check_body, andThen, faultStep, h0, h1, h2, hT, hp, hlt, hse] at h
                  try (subst h; simp [start_stop_warning_error_count])
      ·
        by_cases h3 : fault = some 3
        ·
          by_cases hT : truthyQ s.last_rpm_update = true ∧ now - s.last_rpm_update > STOP_DETECTION_TIME <;>
            by_cases hp : s.is_pedaling = true <;>
              by_cases hlt : truthyOpt s.last_pedaling_time = true <;>
                by_cases hse : s.service_enabled = true <;>
                  · simp [check_body, andThen, faultStep, h0, h1, h2, h3, hT, hp, hlt, hse] at h
                    try (subst h; simp [start_stop_warning_error_count])
        ·
          by_cases h4 : fault = some 4
          ·
            by_cases hT : truthyQ s.last_rpm_update = true ∧ now - s.last_rpm_update > STOP_DETECTION_TIME <;>
              by_cases hp : s.is_pedaling = true <;>
                by_cases hlt : truthyOpt s.last_pedaling_time = true <;>
                  by_cases hse : s.service_enabled = true <;>
                    · simp [check_body, andThen, faultStep, h0, h1, h2, h3, h4, hT, hp, hlt, hse] at h
                      try (subst h; simp [start_stop_warning_error_count])
          ·
            by_cases h5 : fault = some 5
            ·
              by_cases hT : truthyQ s.last_rpm_update = true ∧ now - s.last_rpm_update > STOP_DETECTION_TIME <;>
                by_cases hp : s.is_pedaling = true <;>
                  by_cases hlt : truthyOpt s.last_pedaling_time = true <;>
                    by_cases hse : s.service_enabled = true <;>
                      · simp [check_body, andThen, faultStep, h0, h1, h2, h3, h4, h5, hT, hp, hlt, hse] at h
                        try (subst h; simp [start_stop_warning_error_count])
            ·
              by_cases hT : truthyQ s.last_rpm_update = true ∧ now - s.last_rpm_update > STOP_DETECTION_TIME <;>
                by_cases hp : s.is_pedaling = true <;>
                  by_cases hlt : truthyOpt s.last_pedaling_time = true <;>
                    by_cases hse : s.service_enabled = true <;>
                      · simp [check_body, andThen, faultStep, h0, h1, h2, h3, h4, h5, hT, hp, hlt, hse] at h
                        try (subst h; simp [start_stop_warning_error_count])

lemma pulse_body_none (now : ℚ) (s : BikeState) :
    pulse_body none now s = Except.ok (pulse_callback now s).1 := by
  have c1 : (cadence_peak_update now s).is_pedaling = s.is_pedaling :=
    (cadence_peak_update_pres now s).1
  by_cases hp : s.is_pedaling = true <;>
    simp [pulse_body, pulse_callback, andThen, faultStep, hp, c1]

lemma check_body_none (now : ℚ) (s : BikeState) :
    check_body none now s = Except.ok (check_pedaling_status now s).1 := by
  by_cases hT : truthyQ s.last_rpm_update = true ∧
      now - s.last_rpm_update > STOP_DETECTION_TIME <;>
    by_cases hp : s.is_pedaling = true <;>
      by_cases hlt : truthyOpt s.last_pedaling_time = true <;>
        by_cases hse : s.service_enabled = true <;>
          · simp [check_body, check_pedaling_status, andThen, faultStep,
              hT, hp, hlt, hse]

/-- C9: a fault raised at any statement of `pulse_callback` or
`check_pedaling_status` is caught by the surrounding handler, increments
`error_count` by exactly one, and the operation still returns a state
normally; with no fault injected the handled bodies agree with the plain
operations. -/
theorem C9_fault_containment (fault : Option ℕ) (now : ℚ) (s : BikeState) :
    (∀ se, pulse_body fault now s = Except.error se →
        pulse_callback_f fault now s = { se with error_count := se.error_count + 1 } ∧
        (pulse_callback_f fault now s).error_count = s.error_count + 1) ∧
    (∀ se, check_body fault now s = Except.error se →
        check_pedaling_status_f fault now s
          = { se with error_count := se.error_count + 1 } ∧
        (check_pedaling_status_f fault now s).error_count = s.error_count + 1) ∧
    pulse_callback_f none now s = (pulse_callback now s).1 ∧
    check_pedaling_status_f none now s = (check_pedaling_status now s).1 := by
  refine ⟨?_, ?_, ?_, ?_⟩
  · intro se hse
    have he := pulse_body_err fault now s se hse
    unfold pulse_callback_f
    rw [hse]
    exact ⟨rfl, by simp [he]⟩
  · intro se hse
    have he := check_body_err fault now s se hse
    unfold check_pedaling_status_f
    rw [hse]
    exact ⟨rfl, by simp [he]⟩
  · unfold pulse_callback_f
    rw [pulse_body_none]
  · unfold check_pedaling_status_f
    rw [check_body_none]

/-- C1 witness: a concrete moving trace that times out, and a concrete
stopped trace on which the check is a no-op. -/
theorem C1_witness :
    (check_pedaling_status 4 (runTrace 1 [Op.pulse 1])).1.is_pedaling = false ∧
    (check_pedaling_status 4 (runTrace 1 [Op.pulse 1])).1.current_rpm = 0 ∧
    check_pedaling_status 10 (runTrace 1 [Op.check 2]) = (runTrace 1 [Op.check 2], []) := by
  have hops1 : ∀ op ∈ [Op.pulse 1], 0 < opTime op := by
    intro op hop
    simp at hop
    subst hop
    norm_num [opTime]
  have hops2 : ∀ op ∈ [Op.check 2], 0 < opTime op := by
    intro op hop
    simp at hop
    subst hop
    norm_num [opTime]
  have h1 := (C1_stop_detection 1 4 [Op.pulse 1] (by norm_num) hops1).1
    (by norm_num [runTrace, applyOp, pulse_callback, initState, cadence_peak_update,
      reset_system, WHEEL_CIRCUMFERENCE])
    1
    (by norm_num [runTrace, applyOp, pulse_callback, initState, cadence_peak_update,
      reset_system, WHEEL_CIRCUMFERENCE])
    (by norm_num [STOP_DETECTION_TIME])
  have h2 := (C1_stop_detection 1 10 [Op.check 2] (by norm_num) hops2).2
    (by norm_num [runTrace, applyOp, check_pedaling_status, initState, truthyQ,
      truthyOpt, STOP_DETECTION_TIME])
  exact ⟨h1.1, h1.2, h2⟩

/-- C2 witness: concrete cycles exercising the full, timeout and
mid-cycle-disable outcomes. -/
theorem C2_witness :
    warningCycle 1 0 ⟨true, true, false, 5, fun _ => true, true, true⟩
      = (1, CycleOutcome.full (10 - (1/5) * (1:ℕ)) (1 + 1)) ∧
    warningCycle 2 0 ⟨true, true, false, 200, fun _ => true, true, true⟩
      = (0, CycleOutcome.timeout) ∧
    warningCycle 3 0 ⟨true, true, false, 5, fun i => decide (i < 2), true, true⟩
      = (2, CycleOutcome.disabledMid 2) := by
  refine ⟨?_, ?_, ?_⟩
  · exact C2_warning_escalation.2.2.1 1 0 _ rfl rfl rfl
      (by norm_num [MAX_WARNING_TIME]) (fun i _ => rfl) rfl rfl
  · exact C2_warning_escalation.2.1 2 0 _ rfl rfl rfl
      (by norm_num [MAX_WARNING_TIME])
  · exact C2_warning_escalation.2.2.2.1 3 0 _ 2 (by norm_num)
      (fun i hi => by simp [hi]) (by simp)
      rfl rfl rfl (by norm_num [MAX_WARNING_TIME])

/-- C3 witness: the amended re-enable law at the counterexample trace. -/
theorem C3_amended_witness :
    (runTrace 1 [Op.pulse 1, Op.disable 2, Op.check 4]).is_pedaling = false ∧
    (pulse_callback 5 (runTrace 1 [Op.pulse 1, Op.disable 2, Op.check 4])).1.service_enabled
      = true := by
  constructor
  · norm_num [runTrace, applyOp, initState, pulse_callback, cadence_peak_update,
      reset_system, disable_service, check_pedaling_status, start_stop_warning,
      truthyQ, truthyOpt, STOP_DETECTION_TIME, WHEEL_CIRCUMFERENCE]
  · exact C3_amended_reenable 5 _
      (by norm_num [runTrace, applyOp, initState, pulse_callback, cadence_peak_update,
        reset_system, disable_service, check_pedaling_status, start_stop_warning,
        truthyQ, truthyOpt, STOP_DETECTION_TIME, WHEEL_CIRCUMFERENCE])

/-- C4 witness: the amended stop outputs on a concrete enabled trace. -/
theorem C4_amended_witness :
    (check_pedaling_status 4 (runTrace 1 [Op.pulse 1])).1.is_pedaling = false ∧
    (check_pedaling_status 4 (runTrace 1 [Op.pulse 1])).2
      = (if (runTrace 1 [Op.pulse 1]).service_enabled then [Beep.long] else []) := by
  have h := C4_amended_stop_outputs 4 (runTrace 1 [Op.pulse 1])
    (by norm_num [runTrace, applyOp, pulse_callback, initState, cadence_peak_update,
      reset_system, WHEEL_CIRCUMFERENCE])
    (by norm_num [runTrace, applyOp, pulse_callback, initState, cadence_peak_update,
      reset_system, truthyQ, WHEEL_CIRCUMFERENCE])
    (by norm_num [runTrace, applyOp, pulse_callback, initState, cadence_peak_update,
      reset_system, STOP_DETECTION_TIME, WHEEL_CIRCUMFERENCE])
  exact ⟨h.1, h.2.1⟩

/-- C5 witness: pulses 0.5 s apart give 120 rpm on a concrete trace. -/
theorem C5_witness :
    (pulse_callback (1 + 1/2) (runTrace 1 [Op.pulse 1])).1.current_rpm = 120 :=
  (C5_cadence (runTrace 1 [Op.pulse 1]) 1 (1/2)
    (by norm_num [runTrace, applyOp, pulse_callback, initState, cadence_peak_update,
      reset_system, WHEEL_CIRCUMFERENCE])
    (by norm_num)).2 rfl

/-- C7 witness: a concrete state with an active session is left unchanged. -/
theorem C7_witness :
    start_stop_warning 9 (runTrace 1 [Op.pulse 1, Op.check 4])
      = (runTrace 1 [Op.pulse 1, Op.check 4], false) :=
  C7_single_warning 9 _
    (by norm_num [runTrace, applyOp, initState, pulse_callback, cadence_peak_update,
      reset_system, check_pedaling_status, start_stop_warning,
      truthyQ, truthyOpt, STOP_DETECTION_TIME, WHEEL_CIRCUMFERENCE])

/-- C8 witness: a concrete recompute at time 1 throttles a call at 1.5. -/
theorem C8_witness :
    (get_metrics 1 (initState 0)).1.last_metrics_publish = 1 ∧
    should_update_metrics (3/2) (get_metrics 1 (initState 0)).1 = false := by
  have h := C8_idempotent_snapshot 1 (3/2) (initState 0)
    (by norm_num [should_update_metrics, initState, ACTIVE_UPDATE_INTERVAL])
    (by norm_num [initState, ACTIVE_UPDATE_INTERVAL])
  exact ⟨h.1, h.2.1⟩

/-- C9 witness: concrete injected faults bump the error counter by one. -/
theorem C9_witness :
    (pulse_callback_f (some 0) 2 (initState 1)).error_count
      = (initState 1).error_count + 1 ∧
    (check_pedaling_status_f (some 4) 4 (initState 1)).error_count
      = (initState 1).error_count + 1 := by
  constructor
  · exact ((C9_fault_containment (some 0) 2 (initState 1)).1 (initState 1)
      (by simp [pulse_body, andThen, faultStep])).2
  · exact ((C9_fault_containment (some 4) 4 (initState 1)).2.1 (initState 1)
      (by norm_num [check_body, andThen, faultStep, initState, truthyQ,
        STOP_DETECTION_TIME])).2

/-- C10 witness: the first pulse on the freshly initialised state. -/
theorem C10_witness :
    (pulse_callback 2 (initState 1)).1.current_rpm = 0 ∧
    (pulse_callback 2 (initState 1)).1.is_pedaling = true := by
  have h := C10_first_pulse 2 (initState 1) rfl rfl
  exact ⟨h.1, h.2.2.2.2.2.2⟩

end BikeOS
